import Mathlib

/-!
Verification of the script-synthesis and result-decoding core of a CLI that
drives the Things 3 task manager through AppleScript.  The definitions below
are shallow embeddings of the JavaScript source files: `src/index.js`
(command builders), `src/lib/date-utils.js` (date validation and translation),
`src/lib/applescript.js` (error classification of the execution adapter) and
the alternate legacy implementation of the same commands.  Scripts are
modelled as the exact strings the source concatenates; fallible operations
return `Except`; the host JavaScript engine's generic date parser is an
explicit oracle parameter.
-/

set_option maxRecDepth 10000

deriving instance DecidableEq for Except

namespace ThingsCLI

/-! ### Generic string utilities (List Char based, kernel-reducible) -/

/-- Does `pat` occur at the start of `l`? -/
def leadsWith : List Char → List Char → Bool
  | [], _ => true
  | _ :: _, [] => false
  | a :: as, b :: bs => a == b && leadsWith as bs

/-- Does `pat` occur anywhere inside `l`? -/
def occursIn (pat : List Char) : List Char → Bool
  | [] => leadsWith pat []
  | l@(_ :: rest) => leadsWith pat l || occursIn pat rest

/-- String-level substring test, modelling JavaScript `msg.includes(pat)`. -/
def containsSubstr (s pat : String) : Bool := occursIn pat.data s.data

/-- Split a character list at every newline, modelling `s.split("\n")`. -/
def splitLines (acc : List Char) : List Char → List (List Char)
  | [] => [acc.reverse]
  | '\n' :: rest => acc.reverse :: splitLines [] rest
  | c :: rest => splitLines (c :: acc) rest

/-- Join a list of strings with a separator, modelling `array.join(sep)`. -/
def joinWith (sep : String) : List String → String
  | [] => ""
  | [x] => x
  | x :: xs => x ++ (sep ++ joinWith sep xs)

/-- Concatenation of a list of text chunks, in order; the builders below list
their chunks exactly as the source appends them. -/
def cat : List String → String
  | [] => ""
  | [x] => x
  | x :: xs => x ++ cat xs

/-- Decimal digit character for a value below 10 (`*` otherwise). -/
def digitCh (n : Nat) : Char :=
  if n = 0 then '0' else if n = 1 then '1' else if n = 2 then '2'
  else if n = 3 then '3' else if n = 4 then '4' else if n = 5 then '5'
  else if n = 6 then '6' else if n = 7 then '7' else if n = 8 then '8'
  else if n = 9 then '9' else '*'

/-- Fuel-driven decimal printer accumulator. -/
def natChars : Nat → Nat → List Char → List Char
  | 0, _, acc => acc
  | fuel + 1, n, acc =>
    if n < 10 then digitCh n :: acc
    else natChars fuel (n / 10) (digitCh (n % 10) :: acc)

/-- Decimal rendering of a natural number, modelling JavaScript number
interpolation of a nonnegative integer. -/
def natStr (n : Nat) : String := String.mk (natChars (n + 1) n [])

/-- Number of newline characters in a string. -/
def countNL (s : String) : Nat := s.data.count '\n'

/-- JavaScript string truthiness for an optional option value: absent and
empty strings are falsy. -/
def otruthy : Option String → Bool
  | none => false
  | some s => s != ""

/-- The string value of an option (only inspected when truthy). -/
def strVal : Option String → String
  | none => ""
  | some s => s

/-- Models `!s || s.trim().length === 0`: the string is empty or
whitespace-only. -/
def isBlank (s : String) : Bool := s.data.all (fun c => c.isWhitespace)

/-- Is an `Except` value an error? -/
def isErr {α : Type} : Except String α → Bool
  | .error _ => true
  | .ok _ => false

/-! ### Date utilities (`src/lib/date-utils.js`) -/

/-- A calendar date (what the code extracts from a JavaScript `Date` built
from a `YYYY-MM-DD` string; the model identifies local time with UTC). -/
structure YMD where
  year : Nat
  month : Nat
  day : Nat
deriving DecidableEq

/-- Value of a decimal digit character. -/
def dval (c : Char) : Nat := c.toNat - 48

/-- Does the string match the strict regex `^\d\x7b4\x7d-\d\x7b2\x7d-\d\x7b2\x7d$`? -/
def dateFormatOk (s : String) : Bool :=
  match s.data with
  | [y1, y2, y3, y4, '-', m1, m2, '-', d1, d2] =>
    y1.isDigit && y2.isDigit && y3.isDigit && y4.isDigit &&
    m1.isDigit && m2.isDigit && d1.isDigit && d2.isDigit
  | _ => false

/-- Extract year/month/day from a string of the strict format (zeros
otherwise). -/
def ymdOf (s : String) : YMD :=
  match s.data with
  | [y1, y2, y3, y4, _, m1, m2, _, d1, d2] =>
    ⟨1000 * dval y1 + 100 * dval y2 + 10 * dval y3 + dval y4,
     10 * dval m1 + dval m2,
     10 * dval d1 + dval d2⟩
  | _ => ⟨0, 0, 0⟩

/-- Gregorian leap year test. -/
def isLeap (y : Nat) : Bool := y % 4 = 0 && (y % 100 != 0 || y % 400 = 0)

/-- Days in a month. -/
def daysInMonth (y m : Nat) : Nat :=
  if m = 2 then (if isLeap y then 29 else 28)
  else if m = 4 ∨ m = 6 ∨ m = 9 ∨ m = 11 then 30
  else 31

/-- Modelled from the host platform: the ECMAScript engine accepts a
date-only ISO string (already known to match the strict format) exactly when
its components denote a real calendar date; `new Date(s)` is invalid (`NaN`)
otherwise. -/
def calendarOk (s : String) : Bool :=
  let d := ymdOf s
  1 ≤ d.month && d.month ≤ 12 && 1 ≤ d.day && d.day ≤ daysInMonth d.year d.month

/-- `validateDateString` from `src/lib/date-utils.js`. -/
def validateDateString (s : String) : Except String YMD :=
  if s = "" then .error "Date cannot be empty"
  else if !dateFormatOk s then .error "Due date must be in YYYY-MM-DD format"
  else if !calendarOk s then .error "Invalid due date provided"
  else .ok (ymdOf s)

/-- `generateAppleScriptDate` from `src/lib/date-utils.js`: five statements
joined by a newline plus two-space indentation. -/
def generateAppleScriptDate (d : YMD) (varName : String) : String :=
  joinWith "\n  "
    [cat ["set ", varName, " to current date"],
     cat ["set month of ", varName, " to ", natStr d.month],
     cat ["set day of ", varName, " to ", natStr d.day],
     cat ["set year of ", varName, " to ", natStr d.year],
     cat ["set time of ", varName, " to 0"]]

/-! ### Date decoding (`parseAppleScriptDate`) -/

/-- The value a successful date parse produces (year, 0-based month index,
day, time of day) — the shape of the JavaScript `Date` the fallback
constructs. -/
structure JSDate where
  year : Nat
  monthIdx : Nat
  day : Nat
  hour : Nat
  minute : Nat
  second : Nat
deriving DecidableEq

/-- Strip a leading run of ASCII letters followed by a space, modelling
`str.replace(/^[A-Za-z]+ /, "")`. -/
def stripLeadingWeekday (l : List Char) : List Char :=
  match l.takeWhile (fun c => c.isAlpha), l.dropWhile (fun c => c.isAlpha) with
  | _ :: _, ' ' :: r => r
  | _, _ => l

/-- Replace the first occurrence of the four characters `" at "` by a single
space, modelling `str.replace(" at ", " ")`. -/
def replaceFirstAt : List Char → List Char
  | ' ' :: 'a' :: 't' :: ' ' :: rest => ' ' :: rest
  | c :: rest => c :: replaceFirstAt rest
  | [] => []

/-- The cleaned string handed to the generic date parser. -/
def cleanAppleScriptDate (s : String) : String :=
  String.mk (replaceFirstAt (stripLeadingWeekday s.data))

/-- Take exactly `n` decimal digits from the front of a list. -/
def grabDigits : Nat → List Char → Option (List Char × List Char)
  | 0, l => some ([], l)
  | _ + 1, [] => none
  | n + 1, c :: l =>
    if c.isDigit then
      match grabDigits n l with
      | some (ds, rest) => some (c :: ds, rest)
      | none => none
    else none

/-- Numeric value of a digit string, modelling `parseInt` on it. -/
def digitsVal (cs : List Char) : Nat := cs.foldl (fun a c => 10 * a + dval c) 0

/-- The capture groups of the fallback regex
`(\d\x7b1,2\x7d) ([A-Za-z]+) (\d\x7b4\x7d) at (\d\x7b1,2\x7d):(\d\x7b2\x7d):(\d\x7b2\x7d)`. -/
structure DateGroups where
  day : Nat
  monthName : String
  year : Nat
  hour : Nat
  minute : Nat
  second : Nat
deriving DecidableEq

/-- Match `(\d\x7bk\x7d):(\d\x7b2\x7d):(\d\x7b2\x7d)` at the front. -/
def matchTime (k : Nat) (l : List Char) : Option (Nat × Nat × Nat) :=
  match grabDigits k l with
  | none => none
  | some (hcs, r1) =>
    match r1 with
    | ':' :: r2 =>
      match grabDigits 2 r2 with
      | none => none
      | some (mics, r3) =>
        match r3 with
        | ':' :: r4 =>
          match grabDigits 2 r4 with
          | none => none
          | some (secs, _) => some (digitsVal hcs, digitsVal mics, digitsVal secs)
        | _ => none
    | _ => none

/-- Match the whole fallback pattern at the front of `l`, with the day taken
as `k` digits. -/
def matchAtWithDay (k : Nat) (l : List Char) : Option DateGroups :=
  match grabDigits k l with
  | none => none
  | some (dcs, r1) =>
    match r1 with
    | ' ' :: r2 =>
      match r2.takeWhile (fun c => c.isAlpha), r2.dropWhile (fun c => c.isAlpha) with
      | [], _ => none
      | letters@(_ :: _), r3 =>
        match r3 with
        | ' ' :: r4 =>
          match grabDigits 4 r4 with
          | none => none
          | some (ycs, r5) =>
            match r5 with
            | ' ' :: 'a' :: 't' :: ' ' :: r6 =>
              match (match matchTime 2 r6 with
                     | some t => some t
                     | none => matchTime 1 r6) with
              | some (h, mi, se) =>
                some ⟨digitsVal dcs, String.mk letters, digitsVal ycs, h, mi, se⟩
              | none => none
            | _ => none
        | _ => none
    | _ => none

/-- Match the fallback pattern at the front of `l`, greedy in the day width
(two digits first, then one), as the regex engine backtracks. -/
def matchAt (l : List Char) : Option DateGroups :=
  match matchAtWithDay 2 l with
  | some g => some g
  | none => matchAtWithDay 1 l

/-- Leftmost match of the fallback pattern anywhere in `l`. -/
def findFirstMatch : List Char → Option DateGroups
  | [] => none
  | l@(_ :: rest) =>
    match matchAt l with
    | some g => some g
    | none => findFirstMatch rest

/-- The fixed 12-entry English month table of the fallback parser. -/
def monthNames : List String :=
  ["January", "February", "March", "April", "May", "June",
   "July", "August", "September", "October", "November", "December"]

/-- Index of a string in a list, modelling `Array.prototype.indexOf`
(`none` for `-1`). -/
def idxFrom : Nat → List String → String → Option Nat
  | _, [], _ => none
  | i, x :: xs, m => if x = m then some i else idxFrom (i + 1) xs m

/-- The manual regex fallback of `parseAppleScriptDate`, run on the original
input string. -/
def regexFallbackParse (s : String) : Option JSDate :=
  match findFirstMatch s.data with
  | none => none
  | some g =>
    match idxFrom 0 monthNames g.monthName with
    | none => none
    | some idx => some ⟨g.year, idx, g.day, g.hour, g.minute, g.second⟩

/-- `parseAppleScriptDate` from `src/lib/date-utils.js`.  The generic
`new Date(string)` parse of the host JavaScript engine is the oracle
parameter `jsDateParse` (`none` models an invalid date). -/
def parseAppleScriptDate (jsDateParse : String → Option JSDate) (s : String) :
    Option JSDate :=
  if s = "" ∨ s = "missing value" then none
  else
    match jsDateParse (cleanAppleScriptDate s) with
    | some d => some d
    | none => regexFallbackParse s

/-! ### Result decoding (`convertTodoDateFields`) -/

/-- A record field value coming back from the execution adapter: a string or
an actual null. -/
inductive JValue where
  | str : String → JValue
  | null : JValue
deriving DecidableEq

/-- First decoding pass: the sentinel strings `"missing value"` and
`"null"` become null. -/
def sentinelClean (v : JValue) : JValue :=
  if v = .str "missing value" ∨ v = .str "null" then .null else v

/-- The six date fields of a to-do record. -/
def dateFields : List String :=
  ["creationDate", "modificationDate", "dueDate", "activationDate",
   "completionDate", "cancellationDate"]

/-- Second decoding pass, applied to each date field: truthy strings are
parsed and, on success, replaced by their ISO rendering (`iso` models
`Date.prototype.toISOString`); on failure the raw text is kept. -/
def fixDateField (jsDateParse : String → Option JSDate) (iso : JSDate → String)
    (v : JValue) : JValue :=
  match v with
  | .null => .null
  | .str s =>
    if s = "" then .str s
    else
      match parseAppleScriptDate jsDateParse s with
      | some d => .str (iso d)
      | none => .str s

/-- `convertTodoDateFields` from `src/lib/date-utils.js`: normalize the
sentinels on every field, then convert each of the six date fields. -/
def convertTodoDateFields (jsDateParse : String → Option JSDate)
    (iso : JSDate → String) (todo : List (String × JValue)) :
    List (String × JValue) :=
  let cleaned := todo.map (fun kv => (kv.1, sentinelClean kv.2))
  dateFields.foldl
    (fun acc f =>
      acc.map (fun kv =>
        if kv.1 = f then (kv.1, fixDateField jsDateParse iso kv.2) else kv))
    cleaned

/-- Splitting on the two-character separator comma-space, modelling
`s.split(", ")`. -/
def splitCS (acc : List Char) : List Char → List (List Char)
  | [] => [acc.reverse]
  | [c] => [(c :: acc).reverse]
  | c1 :: c2 :: rest =>
    if c1 = ',' ∧ c2 = ' ' then acc.reverse :: splitCS [] rest
    else splitCS (c1 :: acc) (c2 :: rest)

/-- Tag-list decoding from `listTodosJson` in `src/index.js`: a truthy tag
string is split on the separator; null or empty becomes the empty list. -/
def decodeTags : JValue → List String
  | .null => []
  | .str s => if s = "" then [] else (splitCS [] s.data).map String.mk

/-! ### Execution adapter error classification (`src/lib/applescript.js`) -/

/-- The substring-based rewriting of a raw `osascript` failure message in
`executeAppleScript`. -/
def classifyExecError (msg : String) : String :=
  if containsSubstr msg "not found" then
    "Item not found. Please check the name and try again."
  else if containsSubstr msg "Things3" || containsSubstr msg "not running" then
    "Things 3 error. Make sure the app is running and accessible."
  else if containsSubstr msg "Application isn\x27t running" then
    "Things 3 is not running. Please open Things 3 and try again."
  else msg

/-! ### Command builders (`src/index.js`) -/

/-- Quote escaping used throughout the builders, modelling
`str.replace(/\x22/g, a backslash-escaped quote)`. -/
def escapeQuotes (s : String) : String :=
  String.mk (s.data.flatMap (fun c => if c = '\x22' then ['\x5c', '\x22'] else [c]))

/-- The option record of the `add` command. -/
structure AddOptions where
  notes : Option String
  due : Option String
  tags : Option String
  list : Option String
  projectId : Option String
  project : Option String
  areaId : Option String
  area : Option String
deriving DecidableEq

/-- The lists accepted by the `--list` attachment option of `add`. -/
def validLists : List String := ["Inbox", "Today", "Anytime", "Someday", "Upcoming"]

/-- The named lists recognized directly by the listing commands. -/
def sixLists : List String :=
  ["Inbox", "Today", "Anytime", "Someday", "Upcoming", "Logbook"]

/-- The property list of the creation statement built by `addTodo`:
name, then notes if present, then tags if present, each quote-escaped. -/
def addTodoProps (title : String) (o : AddOptions) : List String :=
  [cat ["name:\x22", escapeQuotes title, "\x22"]]
  ++ ((if otruthy o.notes then [cat ["notes:\x22", escapeQuotes (strVal o.notes), "\x22"]] else [])
  ++ (if otruthy o.tags then [cat ["tag names:\x22", escapeQuotes (strVal o.tags), "\x22"]] else []))

/-- The container-attachment clause of `addTodo`: the first truthy hint of
list, project id, project, area id, area wins (the list name is interpolated
unescaped, as in the source). -/
def addTodoAttach (o : AddOptions) : String :=
  if otruthy o.list then cat [" at beginning of list \x22", strVal o.list, "\x22"]
  else if otruthy o.projectId then cat [" at beginning of project id \x22", escapeQuotes (strVal o.projectId), "\x22"]
  else if otruthy o.project then cat [" at beginning of project \x22", escapeQuotes (strVal o.project), "\x22"]
  else if otruthy o.areaId then cat [" at beginning of area id \x22", escapeQuotes (strVal o.areaId), "\x22"]
  else if otruthy o.area then cat [" at beginning of area \x22", escapeQuotes (strVal o.area), "\x22"]
  else ""

/-- The post-creation due-date block of `addTodo` (present exactly when a due
date was supplied and validated). -/
def dueBlockOf : Option YMD → String
  | none => ""
  | some d =>
    cat ["  ", generateAppleScriptDate d "tempDate", "\n",
         "  set due date of newToDo to tempDate\n"]

/-- The script text `addTodo` submits once validation has passed. -/
def addTodoScriptCore (title : String) (o : AddOptions) (dd : Option YMD) : String :=
  cat ["tell application \x22Things3\x22\n",
       "  set newToDo to make new to do with properties \x7b",
       joinWith ", " (addTodoProps title o),
       "\x7d",
       addTodoAttach o,
       "\n",
       dueBlockOf dd,
       "end tell"]

/-- The due-date validation step of `addTodo` and `updateTodo`: when a due
option is truthy it must pass `validateDateString`. -/
def dueResult (due : Option String) : Except String (Option YMD) :=
  if otruthy due then (validateDateString (strVal due)).map some else .ok none

/-- Is a truthy `--list` value outside the accepted enumeration? -/
def listBad (o : AddOptions) : Bool :=
  otruthy o.list && !(validLists.contains (strVal o.list))

/-- `addTodo` from `src/index.js`: title, due-date and list validation, then
the creation script. -/
def addTodo (title : String) (o : AddOptions) : Except String String :=
  if isBlank title then .error "To-do title cannot be empty"
  else
    match dueResult o.due with
    | .error e => .error e
    | .ok dd =>
      if listBad o then
        .error ("Invalid list. Valid lists are: " ++ joinWith ", " validLists)
      else .ok (addTodoScriptCore title o dd)

/-- The body of the plain `list` script when ids are requested. -/
def listTodosIdsBody : String :=
  cat ["  set todoData to \x7b\x7d\n",
       "  repeat with aTodo in todoList\n",
       "    set end of todoData to \x7bname:(name of aTodo), id:(id of aTodo)\x7d\n",
       "  end repeat\n",
       "  return todoData\n"]

/-- The body of the plain `list` script when only names are requested. -/
def listTodosNamesBody : String :=
  cat ["  set todoNames to \x7b\x7d\n",
       "  repeat with aTodo in todoList\n",
       "    set end of todoNames to name of aTodo\n",
       "  end repeat\n",
       "  return todoNames\n"]

/-- The script built by `listTodos` in `src/index.js` (chunks listed exactly
as the source appends them). -/
def listTodosScript (container : String) (includeIds : Bool) : String :=
  cat ("tell application \x22Things3\x22\n" ::
       ((if sixLists.contains container then
          ["  set todoList to to dos of list \x22", container, "\x22\n"]
        else
          ["  try\n",
           "    set todoList to to dos of project id \x22", container, "\x22\n",
           "  on error\n",
           "    try\n",
           "      set todoList to to dos of project \x22", container, "\x22\n",
           "    on error\n",
           "      try\n",
           "        set todoList to to dos of area id \x22", container, "\x22\n",
           "      on error\n",
           "        set todoList to to dos of area \x22", container, "\x22\n",
           "      end try\n",
           "    end try\n",
           "  end try\n"]) ++
       [(if includeIds then listTodosIdsBody else listTodosNamesBody),
        "end tell"]))

/-- The per-item record construction of the `list-json` script. -/
def jsonRecordBody : String :=
  cat ["  set todoData to \x7b\x7d\n",
       "  repeat with aTodo in todoList\n",
       "    set todoRecord to \x7b\x7d\n",
       "    set todoRecord to todoRecord & \x7bid:(id of aTodo)\x7d\n",
       "    set todoRecord to todoRecord & \x7bname:(name of aTodo)\x7d\n",
       "    set todoRecord to todoRecord & \x7bnotes:(notes of aTodo)\x7d\n",
       "    set todoRecord to todoRecord & \x7bstatus:(status of aTodo as string)\x7d\n",
       "    set todoRecord to todoRecord & \x7btagNames:(tag names of aTodo)\x7d\n",
       "    set todoRecord to todoRecord & \x7bcreationDate:(creation date of aTodo as string)\x7d\n",
       "    set todoRecord to todoRecord & \x7bmodificationDate:(modification date of aTodo as string)\x7d\n",
       "    \n",
       "    -- Handle optional dates\n",
       "    try\n",
       "      set todoRecord to todoRecord & \x7bdueDate:(due date of aTodo as string)\x7d\n",
       "    on error\n",
       "      set todoRecord to todoRecord & \x7bdueDate:null\x7d\n",
       "    end try\n",
       "    \n",
       "    try\n",
       "      set todoRecord to todoRecord & \x7bactivationDate:(activation date of aTodo as string)\x7d\n",
       "    on error\n",
       "      set todoRecord to todoRecord & \x7bactivationDate:null\x7d\n",
       "    end try\n",
       "    \n",
       "    try\n",
       "      set todoRecord to todoRecord & \x7bcompletionDate:(completion date of aTodo as string)\x7d\n",
       "    on error\n",
       "      set todoRecord to todoRecord & \x7bcompletionDate:null\x7d\n",
       "    end try\n",
       "    \n",
       "    try\n",
       "      set todoRecord to todoRecord & \x7bcancellationDate:(cancellation date of aTodo as string)\x7d\n",
       "    on error\n",
       "      set todoRecord to todoRecord & \x7bcancellationDate:null\x7d\n",
       "    end try\n",
       "    \n",
       "    -- Handle optional project and area\n",
       "    try\n",
       "      set todoRecord to todoRecord & \x7bproject:(name of project of aTodo)\x7d\n",
       "    on error\n",
       "      set todoRecord to todoRecord & \x7bproject:null\x7d\n",
       "    end try\n",
       "    \n",
       "    try\n",
       "      set todoRecord to todoRecord & \x7barea:(name of area of aTodo)\x7d\n",
       "    on error\n",
       "      set todoRecord to todoRecord & \x7barea:null\x7d\n",
       "    end try\n",
       "    \n",
       "    set end of todoData to todoRecord\n",
       "  end repeat\n",
       "  return todoData\n"]

/-- The script built by `listTodosJson` in `src/index.js` (chunks listed
exactly as the source appends them). -/
def listTodosJsonScript (container : String) : String :=
  cat ("tell application \x22Things3\x22\n" ::
       ((if sixLists.contains container then
          ["  set todoList to to dos of list \x22", container, "\x22\n"]
        else
          ["  try\n",
           "    set todoList to to dos of project \x22", container, "\x22\n",
           "  on error\n",
           "    set todoList to to dos of area \x22", container, "\x22\n",
           "  end try\n"]) ++
       [jsonRecordBody, "end tell"]))

/-- `completeTodoById` from `src/index.js`. -/
def completeTodoById (id : String) : Except String String :=
  if isBlank id then .error "To-do ID cannot be empty"
  else .ok
    (cat ["tell application \x22Things3\x22\n    set aTodo to to do id \x22",
          escapeQuotes id,
          "\x22\n    set todoName to name of aTodo\n    set status of aTodo to completed\n    return todoName\n  end tell"])

/-- The option record of the `update` command (the `--no-project` and
`--no-area` flags are read as booleans, as the source does). -/
structure UpdateOptions where
  title : Option String
  notes : Option String
  tags : Option String
  due : Option String
  project : Option String
  projectId : Option String
  area : Option String
  areaId : Option String
  noProject : Bool
  noArea : Bool
deriving DecidableEq

/-- The script text `updateTodo` submits once validation has passed. -/
def updateTodoScriptCore (id : String) (o : UpdateOptions) (dd : Option YMD) : String :=
  cat ["tell application \x22Things3\x22\n",
       "  set aTodo to to do id \x22", escapeQuotes id, "\x22\n",
       "  set todoName to name of aTodo\n",
       (if otruthy o.title then
          cat ["  set name of aTodo to \x22", escapeQuotes (strVal o.title), "\x22\n",
               "  set todoName to \x22", escapeQuotes (strVal o.title), "\x22\n"]
        else ""),
       (if otruthy o.notes then
          cat ["  set notes of aTodo to \x22", escapeQuotes (strVal o.notes), "\x22\n"]
        else ""),
       (if otruthy o.tags then
          cat ["  set tag names of aTodo to \x22", escapeQuotes (strVal o.tags), "\x22\n"]
        else ""),
       (match dd with
        | some d =>
          cat ["  ", generateAppleScriptDate d "tempDate", "\n",
               "  set due date of aTodo to tempDate\n"]
        | none => ""),
       (if o.noProject then "  delete project of aTodo\n"
        else if otruthy o.projectId then
          cat ["  set project of aTodo to project id \x22", escapeQuotes (strVal o.projectId), "\x22\n"]
        else if otruthy o.project then
          cat ["  set project of aTodo to project \x22", escapeQuotes (strVal o.project), "\x22\n"]
        else ""),
       (if o.noArea then "  delete area of aTodo\n"
        else if otruthy o.areaId then
          cat ["  set area of aTodo to area id \x22", escapeQuotes (strVal o.areaId), "\x22\n"]
        else if otruthy o.area then
          cat ["  set area of aTodo to area \x22", escapeQuotes (strVal o.area), "\x22\n"]
        else ""),
       "  return todoName\n",
       "end tell"]

/-- `updateTodo` from `src/index.js`. -/
def updateTodo (id : String) (o : UpdateOptions) : Except String String :=
  if isBlank id then .error "To-do ID cannot be empty"
  else
    match dueResult o.due with
    | .error e => .error e
    | .ok dd => .ok (updateTodoScriptCore id o dd)

/-- The option record of `project add`. -/
structure ProjectOptions where
  notes : Option String
  area : Option String
deriving DecidableEq

/-- `addProject` from `src/index.js`. -/
def addProject (name : String) (o : ProjectOptions) : Except String String :=
  if isBlank name then .error "Project name cannot be empty"
  else .ok
    (cat ["tell application \x22Things3\x22\n",
          "  set newProject to make new project with properties \x7b",
          joinWith ", "
            ([cat ["name:\x22", escapeQuotes name, "\x22"]]
              ++ (if otruthy o.notes then [cat ["notes:\x22", escapeQuotes (strVal o.notes), "\x22"]] else [])),
          "\x7d",
          (if otruthy o.area then
             cat ["\n  set area of newProject to area \x22", escapeQuotes (strVal o.area), "\x22"]
           else ""),
          "\nend tell"])

/-- `addArea` from `src/index.js`. -/
def addArea (name : String) : Except String String :=
  if isBlank name then .error "Area name cannot be empty"
  else .ok
    (cat ["tell application \x22Things3\x22\n    make new area with properties \x7bname:\x22",
          escapeQuotes name,
          "\x22\x7d\n  end tell"])

/-- `addTag` from `src/index.js`. -/
def addTag (name : String) : Except String String :=
  if isBlank name then .error "Tag name cannot be empty"
  else .ok
    (cat ["tell application \x22Things3\x22\n    make new tag with properties \x7bname:\x22",
          escapeQuotes name,
          "\x22\x7d\n  end tell"])

/-! ### The alternate legacy implementation of `addTodo` -/

/-- Zeller weekday index of a Gregorian date (0 is Saturday). -/
def zellerIdx (d : YMD) : Nat :=
  let adjY := if d.month ≤ 2 then d.year - 1 else d.year
  let adjM := if d.month ≤ 2 then d.month + 12 else d.month
  let k := adjY % 100
  let j := adjY / 100
  (d.day + (13 * (adjM + 1)) / 5 + k + k / 4 + j / 4 + 5 * j) % 7

/-- Three-letter weekday name, indexed by the Zeller index. -/
def weekdayAbbrev (w : Nat) : String :=
  match w with
  | 0 => "Sat" | 1 => "Sun" | 2 => "Mon" | 3 => "Tue"
  | 4 => "Wed" | 5 => "Thu" | _ => "Fri"

/-- Three-letter month name for a 1-based month. -/
def monthAbbrev (m : Nat) : String :=
  match m with
  | 1 => "Jan" | 2 => "Feb" | 3 => "Mar" | 4 => "Apr"
  | 5 => "May" | 6 => "Jun" | 7 => "Jul" | 8 => "Aug"
  | 9 => "Sep" | 10 => "Oct" | 11 => "Nov" | _ => "Dec"

/-- Two-digit zero-padded decimal. -/
def pad2 (n : Nat) : String := if n < 10 then "0" ++ natStr n else natStr n

/-- Modelled from the host platform: `Date.prototype.toDateString`, the
locale-shaped rendering `Www Mmm DD YYYY` the alternate implementation embeds
in the creation property list. -/
def toDateString (d : YMD) : String :=
  cat [weekdayAbbrev (zellerIdx d), " ", monthAbbrev d.month, " ",
       pad2 d.day, " ", natStr d.year]

/-- The property list of the creation statement built by the alternate
`addTodo`: name, then notes, then the due-date literal, then tags. -/
def addTodoAltProps (title : String) (o : AddOptions) : List String :=
  [cat ["name:\x22", escapeQuotes title, "\x22"]]
  ++ ((if otruthy o.notes then [cat ["notes:\x22", escapeQuotes (strVal o.notes), "\x22"]] else [])
  ++ ((if otruthy o.due then [cat ["due date:date \x22", toDateString (ymdOf (strVal o.due)), "\x22"]] else [])
  ++ (if otruthy o.tags then [cat ["tag names:\x22", escapeQuotes (strVal o.tags), "\x22"]] else [])))

/-- The container-attachment clause of the alternate `addTodo` (textually
identical to the primary one). -/
def addTodoAltAttach (o : AddOptions) : String :=
  if otruthy o.list then cat [" at beginning of list \x22", strVal o.list, "\x22"]
  else if otruthy o.projectId then cat [" at beginning of project id \x22", escapeQuotes (strVal o.projectId), "\x22"]
  else if otruthy o.project then cat [" at beginning of project \x22", escapeQuotes (strVal o.project), "\x22"]
  else if otruthy o.areaId then cat [" at beginning of area id \x22", escapeQuotes (strVal o.areaId), "\x22"]
  else if otruthy o.area then cat [" at beginning of area \x22", escapeQuotes (strVal o.area), "\x22"]
  else ""

/-- The script text the alternate `addTodo` submits once validation has
passed. -/
def addTodoAltScriptCore (title : String) (o : AddOptions) : String :=
  cat ["tell application \x22Things3\x22\n",
       "  set newToDo to make new to do with properties \x7b",
       joinWith ", " (addTodoAltProps title o),
       "\x7d",
       addTodoAltAttach o,
       "\nend tell"]

/-- The alternate `addTodo` (legacy parallel implementation): same title and
list validation; the due-date format and calendar checks are inlined; the due
date is embedded as a locale-formatted literal inside the property list. -/
def addTodoAlt (title : String) (o : AddOptions) : Except String String :=
  if isBlank title then .error "To-do title cannot be empty"
  else if otruthy o.due && !dateFormatOk (strVal o.due) then
    .error "Due date must be in YYYY-MM-DD format"
  else if otruthy o.due && !calendarOk (strVal o.due) then
    .error "Invalid due date provided"
  else if listBad o then
    .error ("Invalid list. Valid lists are: " ++ joinWith ", " validLists)
  else .ok (addTodoAltScriptCore title o)

/-! ### Specification-side descriptions

The following definitions restate the spec's container-resolution and
attachment policies declaratively, to be compared with the builders above. -/

/-- One way of fetching a to-do list from a container. -/
inductive FetchAttempt where
  | namedList : String → FetchAttempt
  | projectById : String → FetchAttempt
  | projectByName : String → FetchAttempt
  | areaById : String → FetchAttempt
  | areaByName : String → FetchAttempt
deriving DecidableEq

/-- The fetch statement of one attempt, as text chunks. -/
def renderFetch : FetchAttempt → List String
  | .namedList c => ["set todoList to to dos of list \x22", c, "\x22"]
  | .projectById c => ["set todoList to to dos of project id \x22", c, "\x22"]
  | .projectByName c => ["set todoList to to dos of project \x22", c, "\x22"]
  | .areaById c => ["set todoList to to dos of area id \x22", c, "\x22"]
  | .areaByName c => ["set todoList to to dos of area \x22", c, "\x22"]

/-- Indentation of `n` spaces. -/
def ind (n : Nat) : String := String.mk (List.replicate n ' ')

/-- Renders an ordered list of fetch attempts as nested try blocks, as text
chunks: each failure falls through to the next attempt; a single attempt is
fetched directly with no error handler. -/
def tryChain (d : Nat) : List FetchAttempt → List String
  | [] => []
  | [a] => ind d :: (renderFetch a ++ ["\n"])
  | a :: rest =>
    ind d :: "try\n" :: ind (d + 2) ::
      (renderFetch a ++ ("\n" :: ind d :: "on error\n" ::
        (tryChain (d + 2) rest ++ [ind d, "end try\n"])))

/-- The spec's resolution policy for the plain list command: named lists are
fetched directly; any other container tries project-by-id, project-by-name,
area-by-id, area-by-name in order. -/
def plainListAttempts (c : String) : List FetchAttempt :=
  if sixLists.contains c then [.namedList c]
  else [.projectById c, .projectByName c, .areaById c, .areaByName c]

/-- The spec's resolution policy for the list-as-JSON command: named lists
are fetched directly; any other container tries project-by-name then
area-by-name only. -/
def jsonListAttempts (c : String) : List FetchAttempt :=
  if sixLists.contains c then [.namedList c]
  else [.projectByName c, .areaByName c]

/-- A resolved attachment target for a new to-do. -/
inductive AttachTarget where
  | toNamedList : String → AttachTarget
  | toProjectId : String → AttachTarget
  | toProjectName : String → AttachTarget
  | toAreaId : String → AttachTarget
  | toAreaName : String → AttachTarget
deriving DecidableEq

/-- The target hints of a create request, in the spec's fixed precedence
order: list name, project id, project name, area id, area name. -/
def attachHints (o : AddOptions) : List (Option String × (String → AttachTarget)) :=
  [(o.list, .toNamedList), (o.projectId, .toProjectId), (o.project, .toProjectName),
   (o.areaId, .toAreaId), (o.area, .toAreaName)]

/-- First truthy hint of a precedence list. -/
def firstHint : List (Option String × (String → AttachTarget)) → Option AttachTarget
  | [] => none
  | (v, mk) :: rest => if otruthy v then some (mk (strVal v)) else firstHint rest

/-- The spec's attachment policy: only the first present hint in the fixed
precedence is honored; all others are ignored. -/
def chooseTarget (o : AddOptions) : Option AttachTarget :=
  firstHint (attachHints o)

/-- The attachment clause of a resolved target (empty when no hint is
present; the list name is interpolated unescaped, as in the source). -/
def renderAttachTarget : Option AttachTarget → String
  | none => ""
  | some (.toNamedList s) => cat [" at beginning of list \x22", s, "\x22"]
  | some (.toProjectId s) => cat [" at beginning of project id \x22", escapeQuotes s, "\x22"]
  | some (.toProjectName s) => cat [" at beginning of project \x22", escapeQuotes s, "\x22"]
  | some (.toAreaId s) => cat [" at beginning of area id \x22", escapeQuotes s, "\x22"]
  | some (.toAreaName s) => cat [" at beginning of area \x22", escapeQuotes s, "\x22"]

/-- Is the two-character separator comma-space present? -/
def hasCommaSpace : List Char → Bool
  | [] => false
  | [_] => false
  | c1 :: c2 :: rest => (c1 = ',' && c2 = ' ') || hasCommaSpace (c2 :: rest)

/-- Interleave the separator comma-space between chunks. -/
def joinCS : List (List Char) → List Char
  | [] => []
  | [x] => x
  | x :: xs => x ++ (',' :: ' ' :: joinCS xs)

/-- Modelled from the spec: the host joins the tag names of a task with the
separator comma-space into the raw tag-name string the decoder receives. -/
def joinTags (ts : List String) : String := String.mk (joinCS (ts.map String.data))

/-- No double quote in the list is unescaped, i.e. every occurrence is
immediately preceded by a backslash (`prev` is the character before the
list). -/
def noUnescapedQuote : Option Char → List Char → Bool
  | _, [] => true
  | prev, c :: rest => (c != '\x22' || prev == some '\x5c') && noUnescapedQuote (some c) rest

/-- A truthy due option that fails `validateDateString`. -/
def dueBad (due : Option String) : Bool :=
  otruthy due && isErr (validateDateString (strVal due))

/-- The payload of an `Except`, for inspecting a built script. -/
def okStr : Except String String → String
  | .ok s => s
  | .error e => e

/-! ### Helper lemmas -/

theorem countNL_append (s t : String) : countNL (s ++ t) = countNL s + countNL t := by
  simp [countNL, List.count_append]

theorem digitCh_ne_newline (n : Nat) : digitCh n ≠ '\n' := by
  unfold digitCh
  split_ifs <;> decide

theorem natChars_count_newline (fuel : Nat) :
    ∀ n acc, (natChars fuel n acc).count '\n' = acc.count '\n' := by
  induction fuel with
  | zero => intro n acc; rfl
  | succ f ih =>
    intro n acc
    unfold natChars
    split
    · simp [List.count_cons, digitCh_ne_newline]
    · rw [ih]
      simp [List.count_cons, digitCh_ne_newline]

theorem countNL_natStr (n : Nat) : countNL (natStr n) = 0 := by
  simp [countNL, natStr, natChars_count_newline]

theorem countNL_weekdayAbbrev (w : Nat) : countNL (weekdayAbbrev w) = 0 := by
  rcases w with _|_|_|_|_|_|w <;> rfl

theorem countNL_monthAbbrev (m : Nat) : countNL (monthAbbrev m) = 0 := by
  rcases m with _|_|_|_|_|_|_|_|_|_|_|_|m <;> rfl

theorem countNL_pad2 (n : Nat) : countNL (pad2 n) = 0 := by
  unfold pad2
  split_ifs
  · rw [countNL_append, countNL_natStr]
    decide
  · exact countNL_natStr n

theorem countNL_toDateString (d : YMD) : countNL (toDateString d) = 0 := by
  unfold toDateString
  simp only [cat, countNL_append, countNL_weekdayAbbrev, countNL_monthAbbrev,
    countNL_pad2, countNL_natStr]
  decide

theorem countNL_gen (d : YMD) :
    countNL (generateAppleScriptDate d "tempDate") = 4 := by
  simp only [generateAppleScriptDate, joinWith, cat, countNL_append, countNL_natStr]
  decide

theorem countNL_dueBlock (d : YMD) : countNL (dueBlockOf (some d)) = 6 := by
  unfold dueBlockOf
  simp only [cat, countNL_append, countNL_gen]
  decide

theorem altAttach_eq (o : AddOptions) : addTodoAltAttach o = addTodoAttach o := rfl

theorem attach_eq (o : AddOptions) :
    addTodoAttach o = renderAttachTarget (chooseTarget o) := by
  by_cases h1 : otruthy o.list = true
  · simp [addTodoAttach, chooseTarget, attachHints, firstHint, renderAttachTarget, h1]
  · simp only [Bool.not_eq_true] at h1
    by_cases h2 : otruthy o.projectId = true
    · simp [addTodoAttach, chooseTarget, attachHints, firstHint, renderAttachTarget, h1, h2]
    · simp only [Bool.not_eq_true] at h2
      by_cases h3 : otruthy o.project = true
      · simp [addTodoAttach, chooseTarget, attachHints, firstHint, renderAttachTarget, h1, h2, h3]
      · simp only [Bool.not_eq_true] at h3
        by_cases h4 : otruthy o.areaId = true
        · simp [addTodoAttach, chooseTarget, attachHints, firstHint, renderAttachTarget, h1, h2, h3, h4]
        · simp only [Bool.not_eq_true] at h4
          by_cases h5 : otruthy o.area = true
          · simp [addTodoAttach, chooseTarget, attachHints, firstHint, renderAttachTarget, h1, h2, h3, h4, h5]
          · simp only [Bool.not_eq_true] at h5
            simp [addTodoAttach, chooseTarget, attachHints, firstHint, renderAttachTarget, h1, h2, h3, h4, h5]

theorem addTodo_eval (title : String) (o : AddOptions) (dd : Option YMD)
    (h1 : isBlank title = false) (h2 : dueResult o.due = .ok dd)
    (h3 : listBad o = false) :
    addTodo title o = .ok (addTodoScriptCore title o dd) := by
  unfold addTodo
  rw [h1, h2, h3]
  rfl

theorem dueResult_err (due : Option String) :
    isErr (dueResult due) = dueBad due := by
  unfold dueResult dueBad
  by_cases h : otruthy due = true
  · rw [h]
    simp only [if_pos rfl]
    cases hv : validateDateString (strVal due) <;> simp [isErr, Except.map, hv]
  · simp only [Bool.not_eq_true] at h
    rw [h]
    simp [isErr]

theorem convert_eq_map (jp : String → Option JSDate) (iso : JSDate → String)
    (todo : List (String × JValue)) :
    convertTodoDateFields jp iso todo =
      todo.map (fun kv =>
        (kv.1, if kv.1 ∈ dateFields then fixDateField jp iso (sentinelClean kv.2)
               else sentinelClean kv.2)) := by
  unfold convertTodoDateFields dateFields
  simp only [List.foldl_cons, List.foldl_nil, List.map_map]
  apply List.map_congr_left
  intro kv _
  simp only [Function.comp]
  by_cases h1 : kv.1 = "creationDate"
  · simp [h1]
  · by_cases h2 : kv.1 = "modificationDate"
    · simp [h1, h2]
    · by_cases h3 : kv.1 = "dueDate"
      · simp [h1, h2, h3]
      · by_cases h4 : kv.1 = "activationDate"
        · simp [h1, h2, h3, h4]
        · by_cases h5 : kv.1 = "completionDate"
          · simp [h1, h2, h3, h4, h5]
          · by_cases h6 : kv.1 = "cancellationDate"
            · simp [h1, h2, h3, h4, h5, h6]
            · simp [h1, h2, h3, h4, h5, h6]

theorem noUnescaped_flatMap (l : List Char) :
    ∀ prev, noUnescapedQuote prev
      (l.flatMap (fun c => if c = '\x22' then ['\x5c', '\x22'] else [c])) = true := by
  induction l with
  | nil => intro prev; rfl
  | cons c rest ih =>
    intro prev
    rw [List.flatMap_cons]
    by_cases h : c = '\x22'
    · subst h
      rw [if_pos rfl, List.cons_append, List.cons_append, List.nil_append,
        noUnescapedQuote, noUnescapedQuote, ih (some '\x22')]
      simp
    · rw [if_neg h, List.singleton_append, noUnescapedQuote, ih (some c)]
      simp [h]

theorem splitCS_no_sep (l : List Char) :
    hasCommaSpace l = false → ∀ acc, splitCS acc l = [acc.reverse ++ l] := by
  induction l with
  | nil => intro _ acc; simp [splitCS]
  | cons c rest ih =>
    intro h acc
    cases rest with
    | nil => simp [splitCS]
    | cons c2 r2 =>
      unfold hasCommaSpace at h
      rw [Bool.or_eq_false_iff] at h
      obtain ⟨h1, h2⟩ := h
      simp only [splitCS]
      rw [if_neg]
      · rw [ih h2 (c :: acc)]
        simp
      · rintro ⟨rfl, rfl⟩
        simp at h1

theorem splitCS_sep (t : List Char) :
    hasCommaSpace t = false →
    ∀ acc rest, splitCS acc (t ++ (',' :: ' ' :: rest)) =
      (acc.reverse ++ t) :: splitCS [] rest := by
  induction t with
  | nil =>
    intro _ acc rest
    simp only [List.nil_append, splitCS]
    simp
  | cons c t' ih =>
    intro h acc rest
    cases t' with
    | nil =>
      simp only [List.cons_append, List.nil_append, splitCS]
      have hns : ¬(c = ',' ∧ (',' : Char) = ' ') := by
        rintro ⟨-, hsp⟩; exact absurd hsp (by decide)
      rw [if_neg hns]
      simp
    | cons c2 t'' =>
      unfold hasCommaSpace at h
      rw [Bool.or_eq_false_iff] at h
      obtain ⟨h1, h2⟩ := h
      have h3 := ih h2 (c :: acc) rest
      simp only [List.cons_append] at h3 ⊢
      simp only [splitCS]
      rw [if_neg]
      · rw [h3]
        simp
      · rintro ⟨rfl, rfl⟩
        simp at h1

theorem joinCS_cons_ne_nil (t : List Char) (rest : List (List Char))
    (ht : t ≠ []) : joinCS (t :: rest) ≠ [] := by
  cases rest with
  | nil => simpa [joinCS]
  | cons r rs =>
    simp only [joinCS]
    intro hcontr
    rcases List.append_eq_nil.mp hcontr with ⟨h1, h2⟩
    simp at h2

theorem validate_ok_facts (s : String) (d : YMD)
    (h : validateDateString s = .ok d) :
    s ≠ "" ∧ dateFormatOk s = true ∧ calendarOk s = true ∧ d = ymdOf s := by
  unfold validateDateString at h
  by_cases he : s = ""
  · rw [if_pos he] at h
    cases h
  · rw [if_neg he] at h
    by_cases hf : dateFormatOk s = true
    · rw [hf] at h
      simp only [Bool.not_true, Bool.false_eq_true, if_false] at h
      by_cases hc : calendarOk s = true
      · rw [hc] at h
        simp only [Bool.not_true, Bool.false_eq_true, if_false] at h
        cases h
        exact ⟨he, hf, hc, rfl⟩
      · simp only [Bool.not_eq_true] at hc
        rw [hc] at h
        simp at h
    · simp only [Bool.not_eq_true] at hf
      rw [hf] at h
      simp at h

theorem countNL_props (title : String) (o : AddOptions) (hdue : otruthy o.due = true) :
    countNL (joinWith ", " (addTodoAltProps title o)) =
      countNL (joinWith ", " (addTodoProps title o)) := by
  unfold addTodoAltProps addTodoProps
  rw [hdue]
  by_cases hn : otruthy o.notes = true
  · rw [hn]
    by_cases ht : otruthy o.tags = true
    · rw [ht]
      simp only [if_true, List.cons_append, List.nil_append, joinWith, cat,
        countNL_append, countNL_toDateString]
      simp only [show countNL ", " = 0 from by decide,
        show countNL "due date:date \x22" = 0 from by decide,
        show countNL "\x22" = 0 from by decide]
      omega
    · simp only [Bool.not_eq_true] at ht
      rw [ht]
      simp only [if_true, Bool.false_eq_true, if_false, List.cons_append,
        List.nil_append, List.append_nil, joinWith, cat,
        countNL_append, countNL_toDateString]
      simp only [show countNL ", " = 0 from by decide,
        show countNL "due date:date \x22" = 0 from by decide,
        show countNL "\x22" = 0 from by decide]
      omega
  · simp only [Bool.not_eq_true] at hn
    rw [hn]
    by_cases ht : otruthy o.tags = true
    · rw [ht]
      simp only [if_true, Bool.false_eq_true, if_false, List.cons_append,
        List.nil_append, joinWith, cat, countNL_append, countNL_toDateString]
      simp only [show countNL ", " = 0 from by decide,
        show countNL "due date:date \x22" = 0 from by decide,
        show countNL "\x22" = 0 from by decide]
      omega
    · simp only [Bool.not_eq_true] at ht
      rw [ht]
      simp only [if_true, Bool.false_eq_true, if_false, List.cons_append,
        List.nil_append, List.append_nil, joinWith, cat, countNL_append,
        countNL_toDateString]
      simp only [show countNL ", " = 0 from by decide,
        show countNL "due date:date \x22" = 0 from by decide,
        show countNL "\x22" = 0 from by decide]
      omega

theorem addTodoAlt_agrees (title : String) (o : AddOptions)
    (hdue : otruthy o.due = false) :
    addTodo title o = addTodoAlt title o := by
  have hdr : dueResult o.due = .ok none := by
    unfold dueResult
    rw [hdue]
    rfl
  unfold addTodo addTodoAlt
  rw [hdr, hdue]
  simp only [Bool.false_and, Bool.false_eq_true, if_false]
  by_cases hb : isBlank title = true
  · rw [hb]
    rfl
  · simp only [Bool.not_eq_true] at hb
    rw [hb]
    simp only [Bool.false_eq_true, if_false]
    by_cases hl : listBad o = true
    · rw [hl]
      rfl
    · simp only [Bool.not_eq_true] at hl
      rw [hl]
      simp only [Bool.false_eq_true, if_false]
      congr 1
      unfold addTodoScriptCore addTodoAltScriptCore
      have hprops : addTodoAltProps title o = addTodoProps title o := by
        unfold addTodoAltProps addTodoProps
        rw [hdue]
        simp
      rw [hprops, altAttach_eq]
      rfl

theorem addTodoAlt_differs (title : String) (o : AddOptions) (s : String) (d : YMD)
    (hdue : o.due = some s) (hval : validateDateString s = .ok d)
    (hb : isBlank title = false) (hl : listBad o = false) :
    addTodo title o ≠ addTodoAlt title o := by
  obtain ⟨hne, hf, hc, hd⟩ := validate_ok_facts s d hval
  have hts : otruthy (some s) = true := by
    simp [otruthy, hne]
  have htruthy : otruthy o.due = true := by
    rw [hdue]
    exact hts
  have hdr : dueResult o.due = .ok (some d) := by
    unfold dueResult
    rw [hdue, hts]
    simp only [if_true]
    show (validateDateString s).map some = _
    rw [hval]
    rfl
  have hlhs : addTodo title o = .ok (addTodoScriptCore title o (some d)) := by
    unfold addTodo
    rw [hb, hdr, hl]
    rfl
  have hrhs : addTodoAlt title o = .ok (addTodoAltScriptCore title o) := by
    unfold addTodoAlt
    rw [hb, hl, hdue]
    have h1 : (otruthy (some s) && !dateFormatOk (strVal (some s))) = false := by
      rw [show strVal (some s) = s from rfl, hf]
      simp
    have h2 : (otruthy (some s) && !calendarOk (strVal (some s))) = false := by
      rw [show strVal (some s) = s from rfl, hc]
      simp
    rw [h1, h2]
    rfl
  rw [hlhs, hrhs]
  intro heq
  have heq2 : addTodoScriptCore title o (some d) = addTodoAltScriptCore title o := by
    injection heq
  have hcount := congrArg countNL heq2
  unfold addTodoScriptCore addTodoAltScriptCore at hcount
  rw [altAttach_eq] at hcount
  simp only [cat, countNL_append, countNL_dueBlock, countNL_props title o htruthy] at hcount
  simp only [show countNL "\n" = 1 from by decide,
    show countNL "end tell" = 0 from by decide,
    show countNL "\nend tell" = 1 from by decide] at hcount
  omega

/-! ### Claim theorems -/

/-- C1: Container resolution reproduces both policies.  For a container in
the fixed named-list enumeration both listing scripts fetch directly from
that named list (a one-attempt chain, hence no try blocks and no fallback);
for every other container the plain-list script is the four-attempt nested
try chain project-by-id, project-by-name, area-by-id, area-by-name in that
strict order, while the list-as-JSON script is the two-attempt chain
project-by-name then area-by-name (no id-based attempts). -/
theorem containerResolution_both_policies (c : String) (ids : Bool) :
    (sixLists.contains c = true →
      listTodosScript c ids =
        cat ("tell application \x22Things3\x22\n" ::
             (tryChain 2 (plainListAttempts c) ++
              [(if ids then listTodosIdsBody else listTodosNamesBody), "end tell"]))
      ∧ listTodosJsonScript c =
        cat ("tell application \x22Things3\x22\n" ::
             (tryChain 2 (jsonListAttempts c) ++ [jsonRecordBody, "end tell"]))
      ∧ plainListAttempts c = [.namedList c]
      ∧ jsonListAttempts c = [.namedList c])
    ∧ (sixLists.contains c = false →
      listTodosScript c ids =
        cat ("tell application \x22Things3\x22\n" ::
             (tryChain 2 (plainListAttempts c) ++
              [(if ids then listTodosIdsBody else listTodosNamesBody), "end tell"]))
      ∧ listTodosJsonScript c =
        cat ("tell application \x22Things3\x22\n" ::
             (tryChain 2 (jsonListAttempts c) ++ [jsonRecordBody, "end tell"]))
      ∧ plainListAttempts c = [.projectById c, .projectByName c, .areaById c, .areaByName c]
      ∧ jsonListAttempts c = [.projectByName c, .areaByName c]) := by
  constructor
  · intro h
    unfold listTodosScript listTodosJsonScript plainListAttempts jsonListAttempts
    rw [h]
    exact ⟨rfl, rfl, rfl, rfl⟩
  · intro h
    unfold listTodosScript listTodosJsonScript plainListAttempts jsonListAttempts
    rw [h]
    exact ⟨rfl, rfl, rfl, rfl⟩

/-- C1 witness: the named list `Today` resolves directly in both policies,
and the unrecognized container `Groceries` gets the four-level plain chain
and the two-level JSON chain. -/
theorem containerResolution_both_policies_witness :
    plainListAttempts "Today" = [.namedList "Today"]
    ∧ jsonListAttempts "Groceries" =
        [.projectByName "Groceries", .areaByName "Groceries"]
    ∧ listTodosScript "Groceries" false =
        cat ("tell application \x22Things3\x22\n" ::
             (tryChain 2 (plainListAttempts "Groceries") ++
              [listTodosNamesBody, "end tell"])) :=
  ⟨((containerResolution_both_policies "Today" true).1 (by decide)).2.2.1,
   ((containerResolution_both_policies "Groceries" true).2 (by decide)).2.2.2,
   ((containerResolution_both_policies "Groceries" false).2 (by decide)).1⟩

/-- C2: When a create-task request supplies several target hints, the built
script contains exactly one container-attachment clause, the one of the
first truthy hint in the fixed precedence list, project id, project name,
area id, area name; all lower-precedence hints are ignored and
over-specification raises no error. -/
theorem addTodo_attachment_precedence (title : String) (o : AddOptions)
    (dd : Option YMD) (h1 : isBlank title = false)
    (h2 : dueResult o.due = .ok dd) (h3 : listBad o = false) :
    addTodo title o = .ok
      (cat ["tell application \x22Things3\x22\n",
            "  set newToDo to make new to do with properties \x7b",
            joinWith ", " (addTodoProps title o),
            "\x7d",
            renderAttachTarget (chooseTarget o),
            "\n",
            dueBlockOf dd,
            "end tell"]) := by
  rw [addTodo_eval title o dd h1 h2 h3, addTodoScriptCore, attach_eq]

/-- C2 witness: with all five hints supplied at once, the build succeeds and
the single attachment clause is the list clause. -/
theorem addTodo_attachment_precedence_witness :
    chooseTarget ⟨none, none, none, some "Today", some "PID1", some "Proj",
      some "AID1", some "Area"⟩ = some (.toNamedList "Today")
    ∧ addTodo "Call mom" ⟨none, none, none, some "Today", some "PID1", some "Proj",
        some "AID1", some "Area"⟩ = .ok
      (cat ["tell application \x22Things3\x22\n",
            "  set newToDo to make new to do with properties \x7b",
            joinWith ", " (addTodoProps "Call mom"
              ⟨none, none, none, some "Today", some "PID1", some "Proj",
               some "AID1", some "Area"⟩),
            "\x7d",
            renderAttachTarget (chooseTarget
              ⟨none, none, none, some "Today", some "PID1", some "Proj",
               some "AID1", some "Area"⟩),
            "\n",
            dueBlockOf none,
            "end tell"]) :=
  ⟨by decide,
   addTodo_attachment_precedence "Call mom"
     ⟨none, none, none, some "Today", some "PID1", some "Proj", some "AID1", some "Area"⟩
     none (by decide) rfl (by decide)⟩

/-- C3 counterexample: the claim says the creation statement is followed by
three date-encode statements binding the temporary and then the due-date
assignment, so exactly four script lines would mention the temporary; in the
script actually built for the `Buy milk` example six lines mention
`tempDate` (five encode statements plus the assignment). -/
theorem addTodo_encode_statement_count_cex :
    ((splitLines []
        (okStr (addTodo "Buy milk"
          ⟨none, some "2024-01-15", some "Home,Urgent", some "Today",
           none, none, none, none⟩)).data).filter
      (fun l => occursIn "tempDate".data l)).length = 6 ∧ (6 : Nat) ≠ 3 + 1 :=
  ⟨by decide, by decide⟩

/-- C3 (amended): building the create-task script for title `Buy milk`, due
`2024-01-15`, tags `Home,Urgent`, list `Today` yields exactly this script:
property list ordered name then tags (notes omitted), the attach clause
`at beginning of list "Today"`, then five date-encode statements binding
`tempDate` (set to current date; set month; set day; set year; zero the
time), then the due-date assignment referencing `tempDate`; the encode
statements appear after the creation statement, never inside the property
list. -/
theorem addTodo_buyMilk_script :
    addTodo "Buy milk"
        ⟨none, some "2024-01-15", some "Home,Urgent", some "Today",
         none, none, none, none⟩ =
      Except.ok
        ("tell application \x22Things3\x22\n  set newToDo to make new to do with properties \x7bname:\x22Buy milk\x22, tag names:\x22Home,Urgent\x22\x7d at beginning of list \x22Today\x22\n  set tempDate to current date\n  set month of tempDate to 1\n  set day of tempDate to 15\n  set year of tempDate to 2024\n  set time of tempDate to 0\n  set due date of newToDo to tempDate\nend tell") := by
  decide

/-- C4: `parseAppleScriptDate` is total and silently absent on failure: an
empty input or the exact input `missing value` yields none; whenever the
generic parse of the weekday-stripped string fails, the result is exactly
the regex fallback (which maps the month name through the fixed 12-entry
case-sensitive English month table); when the fallback also fails the
result is none — no exception, by totality of the function. -/
theorem parseAppleScriptDate_total_and_fallback
    (jp : String → Option JSDate) (s : String) :
    ((s = "" ∨ s = "missing value") → parseAppleScriptDate jp s = none)
    ∧ (jp (cleanAppleScriptDate s) = none →
        parseAppleScriptDate jp s = regexFallbackParse s)
    ∧ (jp (cleanAppleScriptDate s) = none → regexFallbackParse s = none →
        parseAppleScriptDate jp s = none) := by
  refine ⟨?_, ?_, ?_⟩
  · intro h
    unfold parseAppleScriptDate
    rw [if_pos h]
  · intro h
    by_cases hs : s = "" ∨ s = "missing value"
    · unfold parseAppleScriptDate
      rw [if_pos hs]
      rcases hs with rfl | rfl
      · decide
      · decide
    · unfold parseAppleScriptDate
      rw [if_neg hs, h]
  · intro h1 h2
    by_cases hs : s = "" ∨ s = "missing value"
    · unfold parseAppleScriptDate
      rw [if_pos hs]
    · unfold parseAppleScriptDate
      rw [if_neg hs, h1, h2]

/-- C4 witness: concrete runs with a generic parser that always fails. -/
theorem parseAppleScriptDate_total_and_fallback_witness :
    parseAppleScriptDate (fun _ => none) "missing value" = none
    ∧ parseAppleScriptDate (fun _ => none) "not a date at all" = none
    ∧ parseAppleScriptDate (fun _ => none) "Wednesday 6 August 2025 at 20:45:46" =
        regexFallbackParse "Wednesday 6 August 2025 at 20:45:46" :=
  ⟨(parseAppleScriptDate_total_and_fallback (fun _ => none) "missing value").1 (Or.inr rfl),
   (parseAppleScriptDate_total_and_fallback (fun _ => none) "not a date at all").2.2
     rfl (by decide),
   (parseAppleScriptDate_total_and_fallback (fun _ => none)
     "Wednesday 6 August 2025 at 20:45:46").2.1 rfl⟩

/-- C5: Result-decoder sentinel normalization.  For every record field a raw
value equal to `missing value` or `null` decodes to null; every other string
value of a non-date field passes through unchanged; a date field whose text
cannot be parsed keeps its raw original text instead of aborting the
record. -/
theorem convertTodoDateFields_normalization (jp : String → Option JSDate)
    (iso : JSDate → String) (todo : List (String × JValue)) (i : Nat)
    (k : String) (v : JValue) (h : todo[i]? = some (k, v)) :
    ((v = .str "missing value" ∨ v = .str "null") →
      (convertTodoDateFields jp iso todo)[i]? = some (k, .null))
    ∧ (∀ s, v = .str s → s ≠ "missing value" → s ≠ "null" → k ∉ dateFields →
        (convertTodoDateFields jp iso todo)[i]? = some (k, .str s))
    ∧ (∀ s, v = .str s → s ≠ "missing value" → s ≠ "null" →
        parseAppleScriptDate jp s = none →
        (convertTodoDateFields jp iso todo)[i]? = some (k, .str s)) := by
  rw [convert_eq_map]
  rw [List.getElem?_map, h]
  refine ⟨?_, ?_, ?_⟩
  · intro hv
    have hs : sentinelClean v = .null := by
      unfold sentinelClean
      rw [if_pos hv]
    simp only [Option.map_some']
    rw [hs]
    by_cases hk : k ∈ dateFields
    · simp [hk, fixDateField]
    · simp [hk]
  · intro s hv h1 h2 hk
    have hs : sentinelClean v = .str s := by
      unfold sentinelClean
      rw [if_neg, hv]
      rw [hv]
      rintro (h | h) <;> simp_all
    simp only [Option.map_some']
    rw [hs]
    simp [hk]
  · intro s hv h1 h2 hp
    have hs : sentinelClean v = .str s := by
      unfold sentinelClean
      rw [if_neg, hv]
      rw [hv]
      rintro (h | h) <;> simp_all
    simp only [Option.map_some']
    rw [hs]
    by_cases hk : k ∈ dateFields
    · simp only [hk, if_pos]
      unfold fixDateField
      by_cases hse : s = ""
      · simp [hse]
      · simp [hse, hp]
    · simp [hk]

/-- C5 witness: a record with a sentinel due date, an untouched name, and an
unparseable creation date, decoded with an always-failing generic parser. -/
theorem convertTodoDateFields_normalization_witness :
    (convertTodoDateFields (fun _ => none) (fun _ => "")
      [("dueDate", .str "missing value"), ("name", .str "Call mom"),
       ("creationDate", .str "garbage date")])[0]? = some ("dueDate", JValue.null)
    ∧ (convertTodoDateFields (fun _ => none) (fun _ => "")
      [("dueDate", .str "missing value"), ("name", .str "Call mom"),
       ("creationDate", .str "garbage date")])[1]? = some ("name", JValue.str "Call mom")
    ∧ (convertTodoDateFields (fun _ => none) (fun _ => "")
      [("dueDate", .str "missing value"), ("name", .str "Call mom"),
       ("creationDate", .str "garbage date")])[2]? =
        some ("creationDate", JValue.str "garbage date") :=
  ⟨(convertTodoDateFields_normalization (fun _ => none) (fun _ => "") _ 0 _ _ rfl).1
     (Or.inl rfl),
   (convertTodoDateFields_normalization (fun _ => none) (fun _ => "") _ 1 _ _ rfl).2.1
     "Call mom" rfl (by decide) (by decide) (by decide),
   (convertTodoDateFields_normalization (fun _ => none) (fun _ => "") _ 2 _ _ rfl).2.2
     "garbage date" rfl (by decide) (by decide) (by decide)⟩

/-- C6 counterexample: `Logbook` belongs to the fixed six-list enumeration
of the claim, yet the builder rejects it as a `--list` attachment value —
the attachment validation uses the five-list enumeration without
`Logbook`. -/
theorem addTodo_logbook_cex :
    isErr (addTodo "Task" ⟨none, none, none, some "Logbook", none, none, none, none⟩) = true
    ∧ sixLists.contains "Logbook" = true
    ∧ validLists.contains "Logbook" = false
    ∧ addTodo "Task" ⟨none, none, none, some "Logbook", none, none, none, none⟩ =
        .error "Invalid list. Valid lists are: Inbox, Today, Anytime, Someday, Upcoming" := by
  refine ⟨by decide, by decide, by decide, ?_⟩
  rfl

/-- C6 (amended): the builders raise an error, before any script is built,
exactly when the title (create), id (update and complete) or project, area
or tag name (their create operations) is empty or whitespace-only, when a
supplied due-date string fails the strict pattern or denotes an invalid
calendar date, or when the list-attachment option names a list outside the
enumeration Inbox, Today, Anytime, Someday, Upcoming (Logbook is accepted
when listing but not for attachment). -/
theorem builder_validation_characterization (title id pname aname tname : String)
    (o : AddOptions) (uo : UpdateOptions) (po : ProjectOptions) (s : String) :
    (isErr (addTodo title o) = (isBlank title || (dueBad o.due || listBad o)))
    ∧ (isErr (completeTodoById id) = isBlank id)
    ∧ (isErr (updateTodo id uo) = (isBlank id || dueBad uo.due))
    ∧ (isErr (addProject pname po) = isBlank pname)
    ∧ (isErr (addArea aname) = isBlank aname)
    ∧ (isErr (addTag tname) = isBlank tname)
    ∧ (isErr (validateDateString s) = (!dateFormatOk s || !calendarOk s)) := by
  refine ⟨?_, ?_, ?_, ?_, ?_, ?_, ?_⟩
  · unfold addTodo
    by_cases hb : isBlank title = true
    · rw [hb]
      simp [isErr]
    · simp only [Bool.not_eq_true] at hb
      rw [hb]
      simp only [Bool.false_eq_true, if_false, Bool.false_or]
      have hmain : isErr (dueResult o.due) = dueBad o.due := dueResult_err o.due
      cases hd : dueResult o.due with
      | error e =>
        rw [hd] at hmain
        simp only [isErr] at hmain
        rw [← hmain]
        simp [isErr]
      | ok dd =>
        rw [hd] at hmain
        simp only [isErr] at hmain
        rw [← hmain]
        simp only [Bool.false_or]
        by_cases hl : listBad o = true
        · rw [hl]
          simp [isErr]
        · simp only [Bool.not_eq_true] at hl
          rw [hl]
          simp [isErr]
  · unfold completeTodoById
    by_cases hb : isBlank id = true
    · rw [hb]; simp [isErr]
    · simp only [Bool.not_eq_true] at hb
      rw [hb]; simp [isErr]
  · unfold updateTodo
    by_cases hb : isBlank id = true
    · rw [hb]; simp [isErr]
    · simp only [Bool.not_eq_true] at hb
      rw [hb]
      simp only [Bool.false_eq_true, if_false, Bool.false_or]
      have hmain : isErr (dueResult uo.due) = dueBad uo.due := dueResult_err uo.due
      cases hd : dueResult uo.due with
      | error e =>
        rw [hd] at hmain
        simp only [isErr] at hmain
        rw [← hmain]
        simp [isErr]
      | ok dd =>
        rw [hd] at hmain
        simp only [isErr] at hmain
        rw [← hmain]
        simp [isErr]
  · unfold addProject
    by_cases hb : isBlank pname = true
    · rw [hb]; simp [isErr]
    · simp only [Bool.not_eq_true] at hb
      rw [hb]; simp [isErr]
  · unfold addArea
    by_cases hb : isBlank aname = true
    · rw [hb]; simp [isErr]
    · simp only [Bool.not_eq_true] at hb
      rw [hb]; simp [isErr]
  · unfold addTag
    by_cases hb : isBlank tname = true
    · rw [hb]; simp [isErr]
    · simp only [Bool.not_eq_true] at hb
      rw [hb]; simp [isErr]
  · unfold validateDateString
    by_cases he : s = ""
    · subst he
      simp [isErr]
      decide
    · rw [if_neg he]
      by_cases hf : dateFormatOk s = true
      · rw [hf]
        by_cases hc : calendarOk s = true
        · rw [hc]; simp [isErr]
        · simp only [Bool.not_eq_true] at hc
          rw [hc]; simp [isErr]
      · simp only [Bool.not_eq_true] at hf
        rw [hf]; simp [isErr]

/-- C7: Escaper contract.  The escaped string is exactly the input with
every literal double quote replaced by backslash-quote and every other
character kept unchanged, and consequently a string containing a double
quote escapes to a string with no unescaped double quote (single pass;
nothing is claimed about re-application). -/
theorem escapeQuotes_contract (s : String) :
    ((escapeQuotes s).data =
      s.data.flatMap (fun c => if c = '\x22' then ['\x5c', '\x22'] else [c]))
    ∧ ('\x22' ∈ s.data → noUnescapedQuote none (escapeQuotes s).data = true) := by
  constructor
  · rfl
  · intro _
    exact noUnescaped_flatMap s.data none

/-- C7 witness: a concrete string with embedded quotes. -/
theorem escapeQuotes_contract_witness :
    noUnescapedQuote none (escapeQuotes "say \x22hi\x22 now").data = true :=
  (escapeQuotes_contract "say \x22hi\x22 now").2 (by decide)

/-- C8 counterexample: a tag name containing the separator breaks the
round trip — joining the single tag `a, b` and splitting again yields two
tags. -/
theorem tag_roundtrip_cex :
    decodeTags (.str (joinTags ["a, b"])) = ["a", "b"]
    ∧ ["a", "b"] ≠ ["a, b"] := ⟨by decide, by decide⟩

/-- C8 (amended): for every ordered list of nonempty tag names none of which
contains the separator comma-space, joining with the separator and then
decoding reproduces the original ordered list; the empty list corresponds
exactly to the empty string, which decodes to the empty list. -/
theorem tag_roundtrip_amended (ts : List String)
    (h : ∀ t ∈ ts, t ≠ "" ∧ hasCommaSpace t.data = false) :
    decodeTags (.str (joinTags ts)) = ts
    ∧ joinTags [] = "" ∧ decodeTags (.str "") = [] := by
  refine ⟨?_, rfl, rfl⟩
  cases ts with
  | nil => rfl
  | cons t rest =>
    have hne : joinTags (t :: rest) ≠ "" := by
      intro hc
      apply joinCS_cons_ne_nil t.data (rest.map String.data)
      · intro hd
        apply (h t (by simp)).1
        obtain ⟨d⟩ := t
        cases hd
        rfl
      · have := congrArg String.data hc
        simpa [joinTags] using this
    simp only [decodeTags]
    rw [if_neg hne]
    suffices hlist : splitCS [] (joinCS ((t :: rest).map String.data)) =
        (t :: rest).map String.data by
      rw [show (joinTags (t :: rest)).data = joinCS ((t :: rest).map String.data) from rfl]
      rw [hlist, List.map_map]
      have hid : (String.mk ∘ String.data) = id := funext fun x => rfl
      rw [hid, List.map_id]
    clear hne
    induction rest generalizing t with
    | nil =>
      simp only [List.map_cons, List.map_nil, joinCS]
      rw [splitCS_no_sep t.data (h t (by simp)).2 []]
      simp
    | cons u us ih =>
      simp only [List.map_cons, joinCS]
      rw [splitCS_sep t.data (h t (by simp)).2 [] (joinCS (u.data :: us.map String.data))]
      simp only [List.reverse_nil, List.nil_append, List.map_cons]
      have := ih u (fun x hx => h x (by simp at hx ⊢; tauto))
      simp only [List.map_cons] at this
      rw [this]

/-- C8 witness: the round trip on the ordinary tag list Work, Urgent. -/
theorem tag_roundtrip_amended_witness :
    decodeTags (.str (joinTags ["Work", "Urgent"])) = ["Work", "Urgent"] :=
  (tag_roundtrip_amended ["Work", "Urgent"] (by decide)).1

/-- C9 counterexample: a realistic failure message carrying both the host
app's name and the app-not-running phrase is classified as the generic app
error, not as the app-not-running error the claim's precedence demands —
the code tests the `Things3` and `not running` substrings before
`Application isn't running`. -/
theorem classifyExecError_precedence_cex :
    containsSubstr "Things3 got an error: Application isn\x27t running."
        "Application isn\x27t running" = true
    ∧ classifyExecError "Things3 got an error: Application isn\x27t running." =
        "Things 3 error. Make sure the app is running and accessible."
    ∧ classifyExecError "Things3 got an error: Application isn\x27t running." ≠
        "Things 3 is not running. Please open Things 3 and try again." :=
  ⟨by decide, by decide, by decide⟩

/-- C9 (amended): the adapter's failure message is classified by substring
in this order: a message containing `not found` becomes the not-found
error; otherwise one containing `Things3` or `not running` becomes the
generic app error; otherwise one containing `Application isn't running`
becomes the app-not-running error; any other message passes through
verbatim. -/
theorem classifyExecError_characterization (msg : String) :
    (containsSubstr msg "not found" = true →
      classifyExecError msg = "Item not found. Please check the name and try again.")
    ∧ (containsSubstr msg "not found" = false →
       (containsSubstr msg "Things3" = true ∨ containsSubstr msg "not running" = true) →
      classifyExecError msg = "Things 3 error. Make sure the app is running and accessible.")
    ∧ (containsSubstr msg "not found" = false →
       containsSubstr msg "Things3" = false →
       containsSubstr msg "not running" = false →
       containsSubstr msg "Application isn\x27t running" = true →
      classifyExecError msg = "Things 3 is not running. Please open Things 3 and try again.")
    ∧ (containsSubstr msg "not found" = false →
       containsSubstr msg "Things3" = false →
       containsSubstr msg "not running" = false →
       containsSubstr msg "Application isn\x27t running" = false →
      classifyExecError msg = msg) := by
  refine ⟨?_, ?_, ?_, ?_⟩
  · intro h
    unfold classifyExecError
    rw [h]
    rfl
  · intro h1 h2
    unfold classifyExecError
    rw [h1]
    rcases h2 with h2 | h2 <;> rw [h2] <;> simp
  · intro h1 h2 h3 h4
    unfold classifyExecError
    rw [h1, h2, h3, h4]
    rfl
  · intro h1 h2 h3 h4
    unfold classifyExecError
    rw [h1, h2, h3, h4]
    rfl

/-- C9 witness: each of the four classes at a concrete message. -/
theorem classifyExecError_characterization_witness :
    classifyExecError "item x not found here" =
        "Item not found. Please check the name and try again."
    ∧ classifyExecError "Application isn\x27t running." =
        "Things 3 is not running. Please open Things 3 and try again."
    ∧ classifyExecError "borked" = "borked" :=
  ⟨(classifyExecError_characterization "item x not found here").1 (by decide),
   (classifyExecError_characterization "Application isn\x27t running.").2.2.1
     (by decide) (by decide) (by decide) (by decide),
   (classifyExecError_characterization "borked").2.2.2
     (by decide) (by decide) (by decide) (by decide)⟩

/-- C10: the two parallel create-task builders coincide exactly — same
validation outcome, character-identical script — whenever no due date is
supplied, and differ on every valid input with a due date: the primary one
appends the five component-setting date statements after the creation
statement and binds the temporary to the due-date property, while the
alternate embeds a locale-formatted date literal inside the creation
property list, so the scripts disagree (already in newline count). -/
theorem addTodo_between_implementations (title : String) (o : AddOptions) :
    (otruthy o.due = false → addTodo title o = addTodoAlt title o)
    ∧ (∀ s d, o.due = some s → validateDateString s = .ok d →
        isBlank title = false → listBad o = false →
        addTodo title o ≠ addTodoAlt title o) :=
  ⟨fun hdue => addTodoAlt_agrees title o hdue,
   fun s d hdue hval hb hl => addTodoAlt_differs title o s d hdue hval hb hl⟩

/-- C10 witness: without a due date both builders coincide on a concrete
input; with the valid due date 2024-01-15 they differ. -/
theorem addTodo_between_implementations_witness :
    addTodo "Pay rent" ⟨some "monthly", none, some "Home", some "Today",
        none, none, none, none⟩ =
      addTodoAlt "Pay rent" ⟨some "monthly", none, some "Home", some "Today",
        none, none, none, none⟩
    ∧ addTodo "Pay rent" ⟨some "monthly", some "2024-01-15", some "Home",
        some "Today", none, none, none, none⟩ ≠
      addTodoAlt "Pay rent" ⟨some "monthly", some "2024-01-15", some "Home",
        some "Today", none, none, none, none⟩ :=
  ⟨(addTodo_between_implementations "Pay rent"
      ⟨some "monthly", none, some "Home", some "Today", none, none, none, none⟩).1
      (by decide),
   (addTodo_between_implementations "Pay rent"
      ⟨some "monthly", some "2024-01-15", some "Home", some "Today",
       none, none, none, none⟩).2
      "2024-01-15" ⟨2024, 1, 15⟩ rfl (by decide) (by decide) (by decide)⟩

end ThingsCLI
